import Mathlib

/-!
Verification of the accessibility-checker rule engine (`app.py`).

The embedding models the core described in the specification: the three
checkers (`check_alt_text`, `check_font_sizes`, `check_color_contrast`)
and the aggregation step of `analyze_accessibility`.  A parsed document
is modelled as the list of its element nodes in document order (the
order in which the `find_all` traversals of the source enumerate them);
each node carries its tag name, the attributes the checkers read
(`alt`, `src`, `style`) and its stripped text content
(`get_text(strip=True)`).  Numeric style magnitudes are modelled as
exact rationals (the source computes with floats over the same decimal
literals and fixed ratios).  The regular-expression searches of the
source are modelled character-by-character, including scan order and
backtracking behaviour.
-/

/-- Python whitespace characters, as matched by `str.strip` and `\s`
(ASCII range, which is all the engine's fixed patterns ever produce). -/
def pyWS (c : Char) : Bool :=
  c == ' ' || c == '\t' || c == '\n' || c == '\r' || c == '\x0b' || c == '\x0c'

/-- Python `str.strip()`: remove whitespace from both ends. -/
def pyStrip (s : String) : String :=
  String.mk (((s.data.dropWhile pyWS).reverse.dropWhile pyWS).reverse)

/-- Python `str.lower()` (ASCII letters; the tokens compared here are ASCII). -/
def pyLower (s : String) : String :=
  String.mk (s.data.map Char.toLower)

/-- Exact (case-sensitive) list prefix test. -/
def prefixEq : List Char → List Char → Bool
  | [], _ => true
  | _ :: _, [] => false
  | a :: as, b :: bs => a == b && prefixEq as bs

/-- Python's `needle in hay` substring test on character lists. -/
def substrOfChars (needle : List Char) : List Char → Bool
  | [] => prefixEq needle []
  | c :: t => prefixEq needle (c :: t) || substrOfChars needle t

/-- Python's `needle in hay` substring test on strings. -/
def substrOf (needle hay : String) : Bool :=
  substrOfChars needle.data hay.data

/-- A document element node, as the checkers see it: tag name, the
attributes read by the source (`alt`, `src`, `style`), and the node's
stripped text content. -/
structure Node where
  tag : String
  alt : Option String
  src : Option String
  style : Option String
  text : String
deriving DecidableEq, Repr

/-- An issue record, with the exact field set built by the source
(`type`, `element`, `description`, `severity`, `wcag`). -/
structure Issue where
  type : String
  element : String
  description : String
  severity : String
  wcag : String
deriving DecidableEq, Repr

/-- Python `enumerate(xs, 1)`. -/
def enum1 {α : Type} (xs : List α) : List (Nat × α) :=
  xs.enum.map (fun p => (p.1 + 1, p.2))

/-- The generic alt-text tokens of `check_alt_text`. -/
def genericAltTokens : List String := ["image", "picture", "photo", "img"]

/-- The body of the `for i, img in enumerate(images, 1)` loop of
`check_alt_text`: at most one issue per image. -/
def altIssueForImage (i : Nat) (img : Node) : Option Issue :=
  let src := img.src.getD "Unknown source"
  match img.alt with
  | none => some
      { type := "Missing Alt Attribute"
        element := s!"Image {i}"
        description := s!"Image with src=\"{src}\" has no alt attribute"
        severity := "High"
        wcag := "WCAG 2.1 Level A - 1.1.1" }
  | some alt =>
      if pyStrip alt == "" then some
        { type := "Empty Alt Text"
          element := s!"Image {i}"
          description := s!"Image with src=\"{src}\" has empty alt text (okay if decorative)"
          severity := "Medium"
          wcag := "WCAG 2.1 Level A - 1.1.1" }
      else if genericAltTokens.contains (pyLower (pyStrip alt)) then some
        { type := "Generic Alt Text"
          element := s!"Image {i}"
          description := s!"Alt text \"{alt}\" is too generic and not descriptive"
          severity := "Medium"
          wcag := "WCAG 2.1 Level A - 1.1.1" }
      else none

/-- `check_alt_text`: scan all `img` nodes in document order. -/
def check_alt_text (doc : List Node) : List Issue × List String :=
  let images := doc.filter (fun n => n.tag == "img")
  if images.isEmpty then
    ([], ["Consider adding relevant images with proper alt text to enhance content."])
  else
    let issues := (enum1 images).filterMap (fun p => altIssueForImage p.1 p.2)
    let suggestions :=
      if issues.isEmpty then []
      else
        ["Write descriptive alt text that conveys the meaning and context of images",
         "Use empty alt=\x27\x27 for purely decorative images",
         "Avoid generic terms like \x27image\x27, \x27picture\x27, or \x27photo\x27",
         "Keep alt text concise but meaningful (aim for 125 characters or less)"]
    (issues, suggestions)

/-- Case-insensitive list prefix test (the `re.IGNORECASE` flag of the
source's patterns; ASCII case folding, which covers the fixed patterns). -/
def ciPrefixEq : List Char → List Char → Bool
  | [], _ => true
  | _ :: _, [] => false
  | a :: as, b :: bs => a.toLower == b.toLower && ciPrefixEq as bs

/-- The unit alternation `(px|pt|em|rem|%)` of the font-size pattern,
tried in the pattern's order, case-insensitively; returns the matched
slice of the input. -/
def matchUnit (s : List Char) : Option (List Char) :=
  if ciPrefixEq ['p', 'x'] s then some (s.take 2)
  else if ciPrefixEq ['p', 't'] s then some (s.take 2)
  else if ciPrefixEq ['e', 'm'] s then some (s.take 2)
  else if ciPrefixEq ['r', 'e', 'm'] s then some (s.take 3)
  else if ciPrefixEq ['%'] s then some (s.take 1)
  else none

/-- Matching `(\d+(?:\.\d+)?)(px|pt|em|rem|%)` at the head of `r`
(the text following `font-size:` and its whitespace).  The digit runs
are taken greedily; shrinking a digit run on backtracking would place a
digit in front of the unit alternation, which never matches a digit, so
only the greedy runs and the fully dropped fractional group are viable,
as modelled here. -/
def fontSizeMatchAt (r : List Char) : Option (String × String) :=
  let d1 := r.takeWhile Char.isDigit
  if d1.isEmpty then none
  else
    let r2 := r.drop d1.length
    match r2 with
    | '.' :: r3 =>
        let d2 := r3.takeWhile Char.isDigit
        if d2.isEmpty then
          (matchUnit r2).map (fun u => (String.mk d1, String.mk u))
        else
          match matchUnit (r3.drop d2.length) with
          | some u => some (String.mk (d1 ++ '.' :: d2), String.mk u)
          | none => (matchUnit r2).map (fun u => (String.mk d1, String.mk u))
    | _ => (matchUnit r2).map (fun u => (String.mk d1, String.mk u))

/-- `re.search(r'font-size:\s*(\d+(?:\.\d+)?)(px|pt|em|rem|%)', style,
re.IGNORECASE)`: scan left to right for the first position at which the
whole pattern matches, and return the two capture groups. -/
def fontSizeSearchChars : List Char → Option (String × String)
  | [] => none
  | c :: t =>
      if ciPrefixEq "font-size:".data (c :: t) then
        match fontSizeMatchAt ((c :: t).drop "font-size:".data.length |>.dropWhile pyWS) with
        | some g => some g
        | none => fontSizeSearchChars t
      else fontSizeSearchChars t

/-- The font-size search applied to a style string. -/
def fontSizeSearch (style : String) : Option (String × String) :=
  fontSizeSearchChars style.data

/-- Numeric value of a run of decimal digits. -/
def digitsVal (l : List Char) : Nat :=
  l.foldl (fun a c => 10 * a + (c.toNat - 48)) 0

/-- Digit value of the decimal literal captured by the font-size
pattern, ignoring the dot: the literal `d1[.d2]` denotes
`decNum / 10 ^ decScale`.  Together with `decScale` this models the
source's `float(...)` of the capture exactly (the captured literals are
short enough that the claims never touch binary-float rounding). -/
def decNum (s : String) : Nat :=
  digitsVal (s.data.filter (fun c => c != '.'))

/-- Number of fractional digits of the captured decimal literal. -/
def decScale (s : String) : Nat :=
  (s.data.dropWhile (fun c => c != '.')).length - 1

/-- Value denoted by a scaled-decimal pair, as a rational. -/
def decValue (n k : Nat) : ℚ :=
  (n : ℚ) / 10 ^ k

/-- The unit-conversion chain of `check_font_sizes` (the Unit
Normalizer) on scaled decimals: `px` unchanged, `pt` times 1.33
(numerator times 133, two more fractional digits), `em`/`rem` times 16,
`%` of a 16px base; `none` models the `continue` of the final `else`.
`decValue` relates each branch to the source's float expression. -/
def normalizeToPixels (n k : Nat) (unit : String) : Option (Nat × Nat) :=
  if unit == "px" then some (n, k)
  else if unit == "pt" then some (n * 133, k + 2)
  else if unit == "em" || unit == "rem" then some (n * 16, k)
  else if unit == "%" then some (n * 16, k + 2)
  else none

/-- Round a scaled decimal to one decimal place, half to even, and
render it (the `:.1f` of the source's description; formatting of the
host float is abstracted to exact-value rounding). -/
def fmt1 (n k : Nat) : String :=
  let t := n * 10
  let d := 10 ^ k
  let q := t / d
  let r := t % d
  let q2 :=
    if 2 * r > d then q + 1
    else if 2 * r < d then q
    else if q % 2 = 0 then q else q + 1
  s!"{q2 / 10}.{q2 % 10}"

/-- The body of the styled-elements loop of `check_font_sizes`: at most
one Small Font Size issue per styled node.  The source's guard
`pixel_size < 12` on the float value is the exact comparison
`n / 10 ^ k < 12`, i.e. `n < 12 * 10 ^ k`. -/
def fontIssueForNode (i : Nat) (n : Node) : Option Issue :=
  let style := n.style.getD ""
  match fontSizeSearch style with
  | none => none
  | some (g1, g2) =>
      let sizeNum := decNum g1
      let sizeScale := decScale g1
      let unit := pyLower g2
      match normalizeToPixels sizeNum sizeScale unit with
      | none => none
      | some pk =>
          if pk.1 < 12 * 10 ^ pk.2 then some
            { type := "Small Font Size"
              element := s!"Element {i} ({n.tag})"
              description := s!"Font size {g1}{unit} (approx. {fmt1 pk.1 pk.2}px) may be too small for readability"
              severity := "Medium"
              wcag := "WCAG 2.1 Level AA - 1.4.4" }
          else none

/-- The six text-block tags scanned by Part B of `check_font_sizes`. -/
def longTextTags : List String := ["p", "div", "span", "li", "td", "th"]

/-- `check_font_sizes`: Part A flags small inline font sizes per styled
node, Part B emits one aggregate issue for long text blocks. -/
def check_font_sizes (doc : List Node) : List Issue × List String :=
  let elements_with_styles := doc.filter (fun n => n.style.isSome)
  let smallFontIssues :=
    (enum1 elements_with_styles).filterMap (fun p => fontIssueForNode p.1 p.2)
  let small_fonts_found := !smallFontIssues.isEmpty
  let text_elements := doc.filter (fun n => longTextTags.contains n.tag)
  let long_paragraphs := (text_elements.filter (fun n => n.text.length > 500)).length
  let longIssues : List Issue :=
    if long_paragraphs > 0 then
      [{ type := "Long Text Blocks"
         element := s!"{long_paragraphs} elements"
         description := s!"Found {long_paragraphs} very long text blocks that may hurt readability"
         severity := "Low"
         wcag := "WCAG 2.1 Level AAA - 2.4.8" }]
    else []
  let issues := smallFontIssues ++ longIssues
  let suggestions :=
    (if small_fonts_found then
      ["Use minimum 12px font size for body text (14px+ recommended)",
       "Ensure text can be zoomed to 200% without loss of functionality",
       "Test readability on different devices and screen sizes"]
     else []) ++
    (if long_paragraphs > 0 then
      ["Break up long text blocks with headings, bullet points, or shorter paragraphs"]
     else [])
  (issues, suggestions)

/-- Matching `\s*([^;]+)` at the text that follows a matched key:
the whitespace run is consumed greedily; if the next character is `;`
(or the text ends) the star gives back one whitespace character so that
the one-or-more group can still match; with no whitespace to give back
the position fails.  Returns the capture group. -/
def captureValue (rest : List Char) : Option (List Char) :=
  let w := rest.takeWhile pyWS
  let r := rest.dropWhile pyWS
  match r with
  | c :: _ =>
      if c == ';' then
        match w.getLast? with
        | some cw => some [cw]
        | none => none
      else some (r.takeWhile (fun c2 => c2 != ';'))
  | [] =>
      match w.getLast? with
      | some cw => some [cw]
      | none => none

/-- `re.search(key + r'\s*([^;]+)', style, re.IGNORECASE).group(1)`:
scan left to right; at each position where the key matches
case-insensitively, attempt the value capture, otherwise (or on capture
failure) continue one position to the right.  A position inside a
longer token also matches, which is why `background-color: ...` also
answers a search for the key `color:`. -/
def reSearchChars (key : List Char) : List Char → Option (List Char)
  | [] => none
  | c :: t =>
      if ciPrefixEq key (c :: t) then
        match captureValue ((c :: t).drop key.length) with
        | some cap => some cap
        | none => reSearchChars key t
      else reSearchChars key t

/-- The declaration-value search applied to strings. -/
def reSearchValue (key style : String) : Option String :=
  (reSearchChars key.data style.data).map (fun l => String.mk l)

/-- The fixed light reference set of `check_color_contrast`. -/
def light_colors : List String :=
  ["white", "#fff", "#ffffff", "#f0f0f0", "#e0e0e0",
   "yellow", "lightyellow", "lightgray", "lightgrey", "beige"]

/-- The fixed dark reference set of `check_color_contrast`. -/
def dark_colors : List String :=
  ["black", "#000", "#000000", "#333", "#666",
   "navy", "darkblue", "darkgreen", "darkred", "purple"]

/-- `any(light in color.lower() for light in light_colors)`. -/
def matchesLight (color : String) : Bool :=
  light_colors.any (fun l => substrOf l (pyLower color))

/-- `any(dark in color.lower() for dark in dark_colors)`. -/
def matchesDark (color : String) : Bool :=
  dark_colors.any (fun d => substrOf d (pyLower color))

/-- The body of the styled-elements loop of `check_color_contrast`
(Part A): extract both declaration values, strip them, classify by the
reference sets, and flag light-on-light or dark-on-dark pairs. -/
def contrastIssueForNode (i : Nat) (n : Node) : Option Issue :=
  let style := n.style.getD ""
  match reSearchValue "color:" style, reSearchValue "background-color:" style with
  | some colorRaw, some bgRaw =>
      let text_color := pyStrip colorRaw
      let bg_color := pyStrip bgRaw
      let text_is_light := matchesLight text_color
      let text_is_dark := matchesDark text_color
      let bg_is_light := matchesLight bg_color
      let bg_is_dark := matchesDark bg_color
      if (text_is_light && bg_is_light) || (text_is_dark && bg_is_dark) then some
        { type := "Poor Color Contrast"
          element := s!"Element {i} ({n.tag})"
          description := s!"Text color \"{text_color}\" on background \"{bg_color}\" may have insufficient contrast"
          severity := "High"
          wcag := "WCAG 2.1 Level AA - 1.4.3" }
      else none
  | _, _ => none

/-- The Part B membership test of `check_color_contrast`:
`tag.get('style') and 'color:' in tag.get('style', '')` — the style
attribute is present and non-empty (Python truthiness) and contains
the literal substring `color:` (case-sensitively). -/
def hasColorDecl (n : Node) : Bool :=
  match n.style with
  | none => false
  | some s => !s.data.isEmpty && substrOf "color:" s

/-- `check_color_contrast`: Part A flags same-class color pairs per
styled node, Part B emits one aggregate issue when more than five
nodes carry a `color:` substring in their style. -/
def check_color_contrast (doc : List Node) : List Issue × List String :=
  let elements_with_styles := doc.filter (fun n => n.style.isSome)
  let contrastIssues :=
    (enum1 elements_with_styles).filterMap (fun p => contrastIssueForNode p.1 p.2)
  let contrast_issues_found := !contrastIssues.isEmpty
  let elements_with_color := doc.filter hasColorDecl
  let colorDepIssues : List Issue :=
    if elements_with_color.length > 5 then
      [{ type := "Color Dependency"
         element := s!"{elements_with_color.length} elements"
         description := "Heavy reliance on color - ensure information is also conveyed through other means"
         severity := "Medium"
         wcag := "WCAG 2.1 Level A - 1.4.1" }]
    else []
  let issues := contrastIssues ++ colorDepIssues
  let suggestions :=
    (if contrast_issues_found then
      ["Ensure text has at least 4.5:1 contrast ratio with background (7:1 for AAA compliance)",
       "Test colors using online contrast checkers",
       "Avoid using similar shades for text and background"]
     else []) ++
    (if elements_with_color.length > 5 then
      ["Don\x27t rely solely on color to convey information - use icons, text, or patterns too"]
     else [])
  (issues, suggestions)

/-- The merged issue list of `analyze_accessibility`:
`alt_issues + font_issues + color_issues`. -/
def all_issues (doc : List Node) : List Issue :=
  (check_alt_text doc).1 ++ (check_font_sizes doc).1 ++ (check_color_contrast doc).1

/-- The source's `list(set(...))` over the concatenated suggestion
lists.  CPython's set iteration order is hash-based and unspecified;
this model keeps the first occurrence of each string, and only
order-independent properties (membership, freedom from duplicates,
emptiness) are proved about it. -/
def pySetList (xs : List String) : List String :=
  xs.foldl (fun acc x => if acc.contains x then acc else acc ++ [x]) []

/-- The merged, deduplicated suggestion list of `analyze_accessibility`. -/
def all_suggestions (doc : List Node) : List String :=
  pySetList ((check_alt_text doc).2 ++ (check_font_sizes doc).2 ++ (check_color_contrast doc).2)

/-- `[issue for issue in all_issues if issue['severity'] == 'High']`. -/
def high_issues (doc : List Node) : List Issue :=
  (all_issues doc).filter (fun i => i.severity == "High")

/-- The Medium severity bucket of the aggregator. -/
def medium_issues (doc : List Node) : List Issue :=
  (all_issues doc).filter (fun i => i.severity == "Medium")

/-- The Low severity bucket of the aggregator. -/
def low_issues (doc : List Node) : List Issue :=
  (all_issues doc).filter (fun i => i.severity == "Low")

/-- One issue entry of the report body. -/
def renderIssue (issue : Issue) : String :=
  s!"**{issue.type}** - {issue.element}\n" ++
  s!"• {issue.description}\n" ++
  s!"• Standard: {issue.wcag}\n\n"

/-- The entries of one severity bucket, in bucket order. -/
def renderIssues (l : List Issue) : String :=
  String.join (l.map renderIssue)

/-- The High Priority section of the report; empty when the bucket is
empty (the source only appends the section under `if high_issues:`). -/
def highSectionStr (doc : List Node) : String :=
  if (high_issues doc).isEmpty then ""
  else "### 🚨 High Priority Issues\n" ++ renderIssues (high_issues doc)

/-- The Medium Priority section of the report. -/
def mediumSectionStr (doc : List Node) : String :=
  if (medium_issues doc).isEmpty then ""
  else "### ⚠️ Medium Priority Issues\n" ++ renderIssues (medium_issues doc)

/-- The Low Priority section of the report. -/
def lowSectionStr (doc : List Node) : String :=
  if (low_issues doc).isEmpty then ""
  else "### 💡 Low Priority Issues\n" ++ renderIssues (low_issues doc)

/-- The three severity sections, in the fixed order High, Medium, Low. -/
def sectionsStr (doc : List Node) : String :=
  highSectionStr doc ++ mediumSectionStr doc ++ lowSectionStr doc

/-- Python `str.title()` on ASCII text (uppercase a letter that follows
a non-letter, lowercase the rest). -/
def pyTitleAux : Bool → List Char → List Char
  | _, [] => []
  | prevAlpha, c :: t =>
      (if c.isAlpha then (if prevAlpha then c.toLower else c.toUpper) else c) ::
        pyTitleAux c.isAlpha t

/-- `source_type.replace('_', ' ').title()`. -/
def sourceLabel (source_type : String) : String :=
  String.mk (pyTitleAux false (source_type.data.map (fun c => if c == '_' then ' ' else c)))

/-- The numbered Recommended Actions block (only present when the
deduplicated suggestion list is non-empty). -/
def recommendedStr (suggestions : List String) : String :=
  if suggestions.isEmpty then ""
  else "## 🛠️ Recommended Actions\n\n" ++
    String.join ((enum1 suggestions).map (fun p => s!"{p.1}. {p.2}\n"))

/-- The core of `analyze_accessibility` after fetching and parsing
(which are external collaborators): run the three checkers, merge, and
render (report, status, issue count). -/
def analyze_core (doc : List Node) (source_type : String) : String × String × Nat :=
  let issues := all_issues doc
  let suggestions := all_suggestions doc
  if issues.isEmpty then
    ("🎉 **Great news!** No major accessibility issues detected.\n\n" ++
     "However, consider these general best practices:\n" ++
     String.join ((suggestions.take 3).map (fun s => s!"• {s}\n")),
     "✅ Accessibility check completed successfully!",
     issues.length)
  else
    (s!"## 🔍 Accessibility Analysis Report\n\n" ++
     s!"**Issues Found:** {issues.length}\n" ++
     s!"**Source:** {sourceLabel source_type}\n\n" ++
     sectionsStr doc ++
     recommendedStr suggestions,
     s!"Analysis completed! Found {issues.length} accessibility issues.",
     issues.length)

/-! ### Claim-side specification functions and sample inputs -/

/-- Claim-side restatement of the per-image Alt Text rule: the issue
kind and severity the checker must emit for one image node (`none`
when no defect applies), written from the claim's case analysis. -/
def specAltKind (img : Node) : Option (String × String) :=
  match img.alt with
  | none => some ("Missing Alt Attribute", "High")
  | some a =>
      if pyStrip a = "" then some ("Empty Alt Text", "Medium")
      else if pyLower (pyStrip a) ∈ genericAltTokens then some ("Generic Alt Text", "Medium")
      else none

/-- Claim-side conversion table: m for px, m × 1.33 for pt, m × 16 for
em or rem, (m / 100) × 16 for percent, over exact rationals. -/
def specNormalize (m : ℚ) (unit : String) : Option ℚ :=
  if unit = "px" then some m
  else if unit = "pt" then some (m * 1.33)
  else if unit = "em" ∨ unit = "rem" then some (m * 16)
  else if unit = "%" then some ((m / 100) * 16)
  else none

/-- Sample node: an image without an `alt` attribute. -/
def imgNoAlt : Node :=
  { tag := "img", alt := none, src := some "logo.jpg", style := none, text := "" }

/-- Sample node: a paragraph styled `font-size: 9pt`. -/
def pFont9pt : Node :=
  { tag := "p", alt := none, src := none, style := some "font-size: 9pt", text := "" }

/-- Sample node: a paragraph styled `font-size: 1em`. -/
def pFont1em : Node :=
  { tag := "p", alt := none, src := none, style := some "font-size: 1em", text := "" }

/-- Sample node: a paragraph styled `font-size: 8px`. -/
def pFont8px : Node :=
  { tag := "p", alt := none, src := none, style := some "font-size: 8px", text := "" }

/-- Sample node: a node styled only with a background color. -/
def divBgWhite : Node :=
  { tag := "div", alt := none, src := none, style := some "background-color: white", text := "" }

/-- Sample node: light text on a light background. -/
def h1YellowWhite : Node :=
  { tag := "h1", alt := none, src := none,
    style := some "color: yellow; background-color: white;", text := "" }

/-- Sample node: a dark color on a light background. -/
def divNavyLightgray : Node :=
  { tag := "div", alt := none, src := none,
    style := some "color: navy; background-color: lightgray", text := "" }

/-- Sample node: colors from neither reference set. -/
def divBlueRed : Node :=
  { tag := "div", alt := none, src := none,
    style := some "color: blue; background-color: red", text := "" }

/-- Sample node: styled only with a background color (red). -/
def spanBgRed : Node :=
  { tag := "span", alt := none, src := none, style := some "background-color: red", text := "" }

/-- Sample node: a paragraph whose stripped text has 501 characters. -/
def pLongText : Node :=
  { tag := "p", alt := none, src := none, style := none,
    text := String.mk (List.replicate 501 'a') }

/-! ### Helper lemmas -/

theorem prefixEq_iff {n h : List Char} : prefixEq n h = true ↔ ∃ r, h = n ++ r := by
  induction n generalizing h with
  | nil => simp [prefixEq]
  | cons a as ih =>
      cases h with
      | nil => simp [prefixEq]
      | cons b bs =>
          simp only [prefixEq, Bool.and_eq_true, beq_iff_eq, ih, List.cons_append,
            List.cons.injEq]
          constructor
          · rintro ⟨rfl, r, rfl⟩
            exact ⟨r, rfl, rfl⟩
          · rintro ⟨r, rfl, rfl⟩
            exact ⟨rfl, r, rfl⟩

theorem substr_iff {n h : List Char} :
    substrOfChars n h = true ↔ ∃ pre post, h = pre ++ n ++ post := by
  induction h with
  | nil =>
      simp only [substrOfChars, prefixEq_iff]
      constructor
      · rintro ⟨r, hr⟩
        rcases List.append_eq_nil.mp hr.symm with ⟨rfl, rfl⟩
        exact ⟨[], [], rfl⟩
      · rintro ⟨pre, post, hp⟩
        rcases List.append_eq_nil.mp hp.symm with ⟨h1, rfl⟩
        rcases List.append_eq_nil.mp h1 with ⟨rfl, rfl⟩
        exact ⟨[], rfl⟩
  | cons c t ih =>
      simp only [substrOfChars, Bool.or_eq_true, prefixEq_iff, ih]
      constructor
      · rintro (⟨r, hr⟩ | ⟨pre, post, rfl⟩)
        · exact ⟨[], r, by simp [hr]⟩
        · exact ⟨c :: pre, post, rfl⟩
      · rintro ⟨pre, post, hp⟩
        cases pre with
        | nil => exact Or.inl ⟨post, by simpa using hp⟩
        | cons x xs =>
            right
            rcases List.cons.injEq .. ▸ hp with ⟨rfl, hteq⟩
            exact ⟨xs, post, hteq⟩

theorem substr_trans {a b c : List Char} (h1 : substrOfChars a b = true)
    (h2 : substrOfChars b c = true) : substrOfChars a c = true := by
  rw [substr_iff] at h1 h2 ⊢
  obtain ⟨p1, q1, rfl⟩ := h1
  obtain ⟨p2, q2, rfl⟩ := h2
  exact ⟨p2 ++ p1, q1 ++ q2, by simp⟩

theorem substr_hay_ne_nil {n h : List Char} (hn : n ≠ []) (hs : substrOfChars n h = true) :
    h ≠ [] := by
  rw [substr_iff] at hs
  obtain ⟨p, q, rfl⟩ := hs
  cases n with
  | nil => exact absurd rfl hn
  | cons x xs => simp

theorem altIssue_fields {i : Nat} {img : Node} {iss : Issue}
    (h : altIssueForImage i img = some iss) :
    (iss.severity = "High" ∨ iss.severity = "Medium") ∧ iss.element = s!"Image {i}" := by
  rcases halt : img.alt with _ | alt
  · simp only [altIssueForImage, halt] at h
    obtain rfl := Option.some.inj h
    exact ⟨Or.inl rfl, rfl⟩
  · simp only [altIssueForImage, halt] at h
    split at h
    · obtain rfl := Option.some.inj h
      exact ⟨Or.inr rfl, rfl⟩
    · split at h
      · obtain rfl := Option.some.inj h
        exact ⟨Or.inr rfl, rfl⟩
      · cases h

theorem fontIssue_fields {i : Nat} {n : Node} {iss : Issue}
    (h : fontIssueForNode i n = some iss) :
    iss.type = "Small Font Size" ∧ iss.severity = "Medium" := by
  rcases hs : fontSizeSearch (n.style.getD "") with _ | ⟨g1, g2⟩
  · simp only [fontIssueForNode, hs] at h
    exact Option.noConfusion h
  · simp only [fontIssueForNode, hs] at h
    rcases hn : normalizeToPixels (decNum g1) (decScale g1) (pyLower g2) with _ | pk
    · simp only [hn] at h
      exact Option.noConfusion h
    · simp only [hn] at h
      split at h
      · obtain rfl := Option.some.inj h
        exact ⟨rfl, rfl⟩
      · cases h

theorem contrastIssue_fields {i : Nat} {n : Node} {iss : Issue}
    (h : contrastIssueForNode i n = some iss) :
    iss.type = "Poor Color Contrast" ∧ iss.severity = "High" := by
  rcases hc : reSearchValue "color:" (n.style.getD "") with _ | cr
  · simp only [contrastIssueForNode, hc] at h
    exact Option.noConfusion h
  · rcases hb : reSearchValue "background-color:" (n.style.getD "") with _ | br
    · simp only [contrastIssueForNode, hc, hb] at h
      exact Option.noConfusion h
    · simp only [contrastIssueForNode, hc, hb] at h
      split at h
      · obtain rfl := Option.some.inj h
        exact ⟨rfl, rfl⟩
      · cases h

theorem check_alt_text_issues_eq (doc : List Node) :
    (check_alt_text doc).1 =
      (enum1 (doc.filter (fun n => n.tag == "img"))).filterMap
        (fun p => altIssueForImage p.1 p.2) := by
  simp only [check_alt_text]
  split
  · next h =>
      rw [List.isEmpty_iff.mp h]
      rfl
  · rfl

theorem check_font_sizes_issues_eq (doc : List Node) :
    (check_font_sizes doc).1 =
      (enum1 (doc.filter (fun n => n.style.isSome))).filterMap
        (fun p => fontIssueForNode p.1 p.2) ++
      (if ((doc.filter (fun n => longTextTags.contains n.tag)).filter
            (fun n => n.text.length > 500)).length > 0 then
        [{ type := "Long Text Blocks"
           element := s!"{((doc.filter (fun n => longTextTags.contains n.tag)).filter (fun n => n.text.length > 500)).length} elements"
           description := s!"Found {((doc.filter (fun n => longTextTags.contains n.tag)).filter (fun n => n.text.length > 500)).length} very long text blocks that may hurt readability"
           severity := "Low"
           wcag := "WCAG 2.1 Level AAA - 2.4.8" }]
      else []) := rfl

theorem check_color_contrast_issues_eq (doc : List Node) :
    (check_color_contrast doc).1 =
      (enum1 (doc.filter (fun n => n.style.isSome))).filterMap
        (fun p => contrastIssueForNode p.1 p.2) ++
      (if (doc.filter hasColorDecl).length > 5 then
        [{ type := "Color Dependency"
           element := s!"{(doc.filter hasColorDecl).length} elements"
           description := "Heavy reliance on color - ensure information is also conveyed through other means"
           severity := "Medium"
           wcag := "WCAG 2.1 Level A - 1.4.1" }]
      else []) := rfl

theorem altIssue_matches_spec (i : Nat) (img : Node) :
    (altIssueForImage i img).map (fun iss => (iss.type, iss.severity, iss.element)) =
      (specAltKind img).map (fun k => (k.1, k.2, s!"Image {i}")) := by
  rcases halt : img.alt with _ | alt
  · simp [altIssueForImage, specAltKind, halt]
  · by_cases h1 : pyStrip alt = ""
    · simp [altIssueForImage, specAltKind, halt, h1]
    · by_cases h2 : pyLower (pyStrip alt) ∈ genericAltTokens
      · simp [altIssueForImage, specAltKind, halt, h1, h2, List.elem_iff]
      · simp [altIssueForImage, specAltKind, halt, h1, h2, List.elem_iff]

/-- C3: for every image node, in document order numbered from 1, the
alt-text checker emits exactly one issue when a defect applies —
Missing Alt Attribute (High) when `alt` is absent, Empty Alt Text
(Medium) when it trims to empty, Generic Alt Text (Medium) when it
trims case-insensitively to a generic token — and no issue otherwise;
a document with no image nodes yields no issues and exactly the one
suggestion recommending described images. -/
theorem alt_checker_per_image (doc : List Node) :
    ((check_alt_text doc).1 =
      (enum1 (doc.filter (fun n => n.tag == "img"))).filterMap
        (fun p => altIssueForImage p.1 p.2))
    ∧ (∀ i img, (altIssueForImage i img).map (fun iss => (iss.type, iss.severity, iss.element)) =
        (specAltKind img).map (fun k => (k.1, k.2, s!"Image {i}")))
    ∧ (doc.filter (fun n => n.tag == "img") = [] →
        (check_alt_text doc).1 = [] ∧
        (check_alt_text doc).2 =
          ["Consider adding relevant images with proper alt text to enhance content."]) := by
  refine ⟨check_alt_text_issues_eq doc, altIssue_matches_spec, ?_⟩
  intro himg
  simp [check_alt_text, himg]

theorem alt_checker_per_image_witness :
    (check_alt_text [pFont8px]).1 = [] ∧
    (check_alt_text [pFont8px]).2 =
      ["Consider adding relevant images with proper alt text to enhance content."] :=
  (alt_checker_per_image [pFont8px]).2.2 (by decide)

/-- C1 counterexample: classification is substring membership, so the
token `"white black"` matches the light set (via `white`) and the dark
set (via `black`) simultaneously, refuting "no input token is
simultaneously classified as matching the light set and the dark
set". -/
theorem classifier_both_sets_counterexample :
    matchesLight "white black" = true ∧ matchesDark "white black" = true := by
  decide

/-- C1 amended: the two fixed reference sets are disjoint in the sense
that every token that is exactly a member of one set matches only that
set; a token matching neither set is treated as indeterminate and
skipped without an issue; but substring matching lets a token that
contains members of both sets match both. -/
theorem classifier_sets_rule :
    (∀ c ∈ light_colors, matchesLight c = true ∧ matchesDark c = false)
    ∧ (∀ c ∈ dark_colors, matchesDark c = true ∧ matchesLight c = false)
    ∧ (∀ (i : Nat) (n : Node) (colorRaw : String),
        reSearchValue "color:" (n.style.getD "") = some colorRaw →
        matchesLight (pyStrip colorRaw) = false →
        matchesDark (pyStrip colorRaw) = false →
        contrastIssueForNode i n = none) := by
  refine ⟨?_, ?_, ?_⟩
  · intro c hc
    fin_cases hc <;> decide
  · intro c hc
    fin_cases hc <;> decide
  · intro i n colorRaw hc hl hd
    rcases hb : reSearchValue "background-color:" (n.style.getD "") with _ | br
    · simp [contrastIssueForNode, hc, hb]
    · simp [contrastIssueForNode, hc, hb, hl, hd]

theorem classifier_sets_rule_witness :
    (matchesLight "white" = true ∧ matchesDark "white" = false) ∧
    contrastIssueForNode 1 divBlueRed = none :=
  ⟨classifier_sets_rule.1 "white" (by decide),
   classifier_sets_rule.2.2 1 divBlueRed "blue" (by decide) (by decide) (by decide)⟩

theorem contrast_filter_partA (doc : List Node) :
    (check_color_contrast doc).1.filter (fun iss => iss.type == "Poor Color Contrast") =
      (enum1 (doc.filter (fun n => n.style.isSome))).filterMap
        (fun p => contrastIssueForNode p.1 p.2) := by
  rw [check_color_contrast_issues_eq, List.filter_append]
  have h1 : List.filter (fun iss : Issue => iss.type == "Poor Color Contrast")
      ((enum1 (doc.filter (fun n => n.style.isSome))).filterMap
        (fun p => contrastIssueForNode p.1 p.2)) =
      (enum1 (doc.filter (fun n => n.style.isSome))).filterMap
        (fun p => contrastIssueForNode p.1 p.2) := by
    apply List.filter_eq_self.mpr
    intro x hx
    obtain ⟨p, _, hp⟩ := List.mem_filterMap.mp hx
    simp [(contrastIssue_fields hp).1]
  rw [h1]
  have h2 : List.filter (fun iss : Issue => iss.type == "Poor Color Contrast")
      (if (doc.filter hasColorDecl).length > 5 then
        [{ type := "Color Dependency"
           element := s!"{(doc.filter hasColorDecl).length} elements"
           description := "Heavy reliance on color - ensure information is also conveyed through other means"
           severity := "Medium"
           wcag := "WCAG 2.1 Level A - 1.4.1" }]
      else []) = [] := by
    split <;> simp
  rw [h2, List.append_nil]

/-- C4 counterexample: a styled node whose inline style is only
`background-color: white` has no standalone color declaration, yet the
checker emits a Poor Color Contrast issue for it, because the search
for `color:` also matches the suffix of `background-color:` — refuting
"where one of the two declarations is missing, produce no issue". -/
theorem contrast_missing_decl_counterexample :
    (check_color_contrast [divBgWhite]).1.map (fun iss => (iss.type, iss.severity)) =
      [("Poor Color Contrast", "High")] := by
  decide

/-- C4 amended: for every styled node, the checker extracts the first
`color:`-keyed value and the first `background-color:`-keyed value from
the style text (the former may come from inside the latter); a Poor
Color Contrast issue of severity High naming both extracted tokens is
emitted iff both extractions succeed and both tokens match the light
set or both match the dark set; if either extraction fails or either
token matches neither set, no issue is emitted (so `color: navy` with
`background-color: lightgray` yields none, but a node styled only
`background-color: white` does yield one). -/
theorem contrast_pair_rule (doc : List Node) (i : Nat) (n : Node) :
    ((contrastIssueForNode i n).isSome = true ↔
      ∃ tc bc, reSearchValue "color:" (n.style.getD "") = some tc
        ∧ reSearchValue "background-color:" (n.style.getD "") = some bc
        ∧ ((matchesLight (pyStrip tc) = true ∧ matchesLight (pyStrip bc) = true)
            ∨ (matchesDark (pyStrip tc) = true ∧ matchesDark (pyStrip bc) = true)))
    ∧ (∀ iss, contrastIssueForNode i n = some iss →
        iss.type = "Poor Color Contrast" ∧ iss.severity = "High" ∧
        ∃ tc bc, reSearchValue "color:" (n.style.getD "") = some tc
          ∧ reSearchValue "background-color:" (n.style.getD "") = some bc
          ∧ iss.description =
              s!"Text color \"{pyStrip tc}\" on background \"{pyStrip bc}\" may have insufficient contrast")
    ∧ ((check_color_contrast doc).1.filter (fun iss => iss.type == "Poor Color Contrast") =
        (enum1 (doc.filter (fun n2 => n2.style.isSome))).filterMap
          (fun p => contrastIssueForNode p.1 p.2))
    ∧ contrastIssueForNode 1 divNavyLightgray = none := by
  refine ⟨?_, ?_, contrast_filter_partA doc, by decide⟩
  · rcases hc : reSearchValue "color:" (n.style.getD "") with _ | cr
    · simp [contrastIssueForNode, hc]
    · rcases hb : reSearchValue "background-color:" (n.style.getD "") with _ | br
      · simp [contrastIssueForNode, hc, hb]
      · simp only [contrastIssueForNode, hc, hb]
        split
        · next hcond =>
            simp only [Option.isSome_some, true_iff]
            refine ⟨cr, br, rfl, rfl, ?_⟩
            rcases Bool.or_eq_true .. ▸ hcond with h | h <;>
              rcases Bool.and_eq_true .. ▸ h with ⟨ha, hb2⟩
            · exact Or.inl ⟨ha, hb2⟩
            · exact Or.inr ⟨ha, hb2⟩
        · next hcond =>
            simp only [Option.isSome_none, Bool.false_eq_true, false_iff]
            rintro ⟨tc, bc, htc, hbc, hcl⟩
            obtain rfl := Option.some.inj htc
            obtain rfl := Option.some.inj hbc
            apply hcond
            rcases hcl with ⟨ha, hb2⟩ | ⟨ha, hb2⟩ <;> simp [ha, hb2]
  · intro iss h
    obtain ⟨ht, hs⟩ := contrastIssue_fields h
    refine ⟨ht, hs, ?_⟩
    rcases hc : reSearchValue "color:" (n.style.getD "") with _ | cr
    · simp only [contrastIssueForNode, hc] at h
      exact Option.noConfusion h
    · rcases hb : reSearchValue "background-color:" (n.style.getD "") with _ | br
      · simp only [contrastIssueForNode, hc, hb] at h
        exact Option.noConfusion h
      · simp only [contrastIssueForNode, hc, hb] at h
        split at h
        · obtain rfl := Option.some.inj h
          exact ⟨cr, br, rfl, rfl, rfl⟩
        · exact Option.noConfusion h

theorem contrast_pair_rule_witness :
    (contrastIssueForNode 1 h1YellowWhite).isSome = true ∧
    contrastIssueForNode 1 divNavyLightgray = none :=
  ⟨(contrast_pair_rule [] 1 h1YellowWhite).1.mpr
      ⟨"yellow", "white", by decide, by decide, Or.inl ⟨by decide, by decide⟩⟩,
   (contrast_pair_rule [] 1 divNavyLightgray).2.2.2⟩

theorem contrast_filter_partB (doc : List Node) :
    (check_color_contrast doc).1.filter (fun iss => iss.type == "Color Dependency") =
      if (doc.filter hasColorDecl).length > 5 then
        [{ type := "Color Dependency"
           element := s!"{(doc.filter hasColorDecl).length} elements"
           description := "Heavy reliance on color - ensure information is also conveyed through other means"
           severity := "Medium"
           wcag := "WCAG 2.1 Level A - 1.4.1" }]
      else [] := by
  rw [check_color_contrast_issues_eq, List.filter_append]
  have h1 : List.filter (fun iss : Issue => iss.type == "Color Dependency")
      ((enum1 (doc.filter (fun n => n.style.isSome))).filterMap
        (fun p => contrastIssueForNode p.1 p.2)) = [] := by
    rw [List.filter_eq_nil_iff]
    intro x hx
    obtain ⟨p, _, hp⟩ := List.mem_filterMap.mp hx
    simp [(contrastIssue_fields hp).1]
  rw [h1, List.nil_append]
  split <;> simp

/-- C5: the color checker counts the styled nodes whose style text
contains the substring `color:` (with Python truthiness on the
attribute value), and its Color Dependency output is exactly one
Medium-severity issue naming that count when the count exceeds 5, and
empty otherwise — never more than one per document. -/
theorem color_dependency_rule (doc : List Node) :
    (∀ m : Node, hasColorDecl m = true ↔ ∃ s, m.style = some s ∧ substrOf "color:" s = true)
    ∧ ((check_color_contrast doc).1.filter (fun iss => iss.type == "Color Dependency") =
        if (doc.filter hasColorDecl).length > 5 then
          [{ type := "Color Dependency"
             element := s!"{(doc.filter hasColorDecl).length} elements"
             description := "Heavy reliance on color - ensure information is also conveyed through other means"
             severity := "Medium"
             wcag := "WCAG 2.1 Level A - 1.4.1" }]
        else [])
    ∧ ((check_color_contrast doc).1.filter (fun iss => iss.type == "Color Dependency")).length ≤ 1 := by
  refine ⟨?_, contrast_filter_partB doc, ?_⟩
  · intro m
    rcases hm : m.style with _ | s
    · simp [hasColorDecl, hm]
    · simp only [hasColorDecl, hm, Option.some.injEq, Bool.and_eq_true]
      constructor
      · rintro ⟨-, h2⟩
        exact ⟨s, rfl, h2⟩
      · rintro ⟨s1, rfl, h2⟩
        refine ⟨?_, h2⟩
        have hne : s.data ≠ [] := substr_hay_ne_nil (by decide) h2
        cases hd : s.data.isEmpty
        · rfl
        · exact absurd (List.isEmpty_iff.mp hd) hne
  · rw [contrast_filter_partB doc]
    split <;> simp

theorem font_filter_partA (doc : List Node) :
    (check_font_sizes doc).1.filter (fun iss => iss.type == "Small Font Size") =
      (enum1 (doc.filter (fun n => n.style.isSome))).filterMap
        (fun p => fontIssueForNode p.1 p.2) := by
  rw [check_font_sizes_issues_eq, List.filter_append]
  have h1 : List.filter (fun iss : Issue => iss.type == "Small Font Size")
      ((enum1 (doc.filter (fun n => n.style.isSome))).filterMap
        (fun p => fontIssueForNode p.1 p.2)) =
      (enum1 (doc.filter (fun n => n.style.isSome))).filterMap
        (fun p => fontIssueForNode p.1 p.2) := by
    apply List.filter_eq_self.mpr
    intro x hx
    obtain ⟨p, _, hp⟩ := List.mem_filterMap.mp hx
    simp [(fontIssue_fields hp).1]
  rw [h1]
  have h2 : List.filter (fun iss : Issue => iss.type == "Small Font Size")
      (if ((doc.filter (fun n => longTextTags.contains n.tag)).filter
            (fun n => n.text.length > 500)).length > 0 then
        [{ type := "Long Text Blocks"
           element := s!"{((doc.filter (fun n => longTextTags.contains n.tag)).filter (fun n => n.text.length > 500)).length} elements"
           description := s!"Found {((doc.filter (fun n => longTextTags.contains n.tag)).filter (fun n => n.text.length > 500)).length} very long text blocks that may hurt readability"
           severity := "Low"
           wcag := "WCAG 2.1 Level AAA - 2.4.8" }]
      else []) = [] := by
    split <;> simp
  rw [h2, List.append_nil]

/-- C6: the font checker counts the `p`/`div`/`span`/`li`/`td`/`th`
nodes whose stripped text exceeds 500 characters; its Long Text Blocks
output is exactly one Low-severity issue naming that count when the
count is positive, and empty otherwise — one issue per document, never
one per element. -/
theorem long_text_rule (doc : List Node) :
    ((check_font_sizes doc).1.filter (fun iss => iss.type == "Long Text Blocks") =
      if ((doc.filter (fun n => longTextTags.contains n.tag)).filter
            (fun n => n.text.length > 500)).length > 0 then
        [{ type := "Long Text Blocks"
           element := s!"{((doc.filter (fun n => longTextTags.contains n.tag)).filter (fun n => n.text.length > 500)).length} elements"
           description := s!"Found {((doc.filter (fun n => longTextTags.contains n.tag)).filter (fun n => n.text.length > 500)).length} very long text blocks that may hurt readability"
           severity := "Low"
           wcag := "WCAG 2.1 Level AAA - 2.4.8" }]
      else [])
    ∧ ((check_font_sizes doc).1.filter (fun iss => iss.type == "Long Text Blocks")).length ≤ 1 := by
  have hmain : (check_font_sizes doc).1.filter (fun iss => iss.type == "Long Text Blocks") =
      if ((doc.filter (fun n => longTextTags.contains n.tag)).filter
            (fun n => n.text.length > 500)).length > 0 then
        [{ type := "Long Text Blocks"
           element := s!"{((doc.filter (fun n => longTextTags.contains n.tag)).filter (fun n => n.text.length > 500)).length} elements"
           description := s!"Found {((doc.filter (fun n => longTextTags.contains n.tag)).filter (fun n => n.text.length > 500)).length} very long text blocks that may hurt readability"
           severity := "Low"
           wcag := "WCAG 2.1 Level AAA - 2.4.8" }]
      else [] := by
    rw [check_font_sizes_issues_eq, List.filter_append]
    have h1 : List.filter (fun iss : Issue => iss.type == "Long Text Blocks")
        ((enum1 (doc.filter (fun n => n.style.isSome))).filterMap
          (fun p => fontIssueForNode p.1 p.2)) = [] := by
      rw [List.filter_eq_nil_iff]
      intro x hx
      obtain ⟨p, _, hp⟩ := List.mem_filterMap.mp hx
      simp [(fontIssue_fields hp).1]
    rw [h1, List.nil_append]
    split <;> simp
  refine ⟨hmain, ?_⟩
  rw [hmain]
  split <;> simp

theorem ciPrefixEq_toLower {pat s : List Char} (h : ciPrefixEq pat s = true)
    {m : Nat} (hm : pat.length = m) :
    (s.take m).map Char.toLower = pat.map Char.toLower := by
  subst hm
  induction pat generalizing s with
  | nil => simp
  | cons a as ih =>
      cases s with
      | nil => exact absurd h (by simp [ciPrefixEq])
      | cons b bs =>
          simp only [ciPrefixEq, Bool.and_eq_true, beq_iff_eq] at h
          simp only [List.length_cons, List.take_succ_cons, List.map_cons, ih h.2, h.1]

theorem matchUnit_cases {s u : List Char} (h : matchUnit s = some u) :
    u.map Char.toLower ∈ [['p', 'x'], ['p', 't'], ['e', 'm'], ['r', 'e', 'm'], ['%']] := by
  unfold matchUnit at h
  split at h
  · next hc =>
      obtain rfl := Option.some.inj h
      rw [@ciPrefixEq_toLower _ _ hc 2 rfl]
      decide
  · split at h
    · next hc =>
        obtain rfl := Option.some.inj h
        rw [@ciPrefixEq_toLower _ _ hc 2 rfl]
        decide
    · split at h
      · next hc =>
          obtain rfl := Option.some.inj h
          rw [@ciPrefixEq_toLower _ _ hc 2 rfl]
          decide
      · split at h
        · next hc =>
            obtain rfl := Option.some.inj h
            rw [@ciPrefixEq_toLower _ _ hc 3 rfl]
            decide
        · split at h
          · next hc =>
              obtain rfl := Option.some.inj h
              rw [@ciPrefixEq_toLower _ _ hc 1 rfl]
              decide
          · exact Option.noConfusion h

theorem pyLower_mk_unit {u : List Char}
    (hu : u.map Char.toLower ∈ [['p', 'x'], ['p', 't'], ['e', 'm'], ['r', 'e', 'm'], ['%']]) :
    pyLower (String.mk u) ∈ (["px", "pt", "em", "rem", "%"] : List String) := by
  have hrw : pyLower (String.mk u) = String.mk (u.map Char.toLower) := rfl
  simp only [List.mem_cons, List.not_mem_nil, or_false] at hu
  rcases hu with h1 | h1 | h1 | h1 | h1 <;>
    · rw [hrw, h1]
      decide

theorem unit_of_map {X d : List Char} {g1 g2 : String}
    (h : Option.map (fun u => ((⟨d⟩ : String), (⟨u⟩ : String))) (matchUnit X) = some (g1, g2)) :
    pyLower g2 ∈ (["px", "pt", "em", "rem", "%"] : List String) := by
  rcases hmu : matchUnit X with _ | u
  · rw [hmu] at h
    exact Option.noConfusion h
  · rw [hmu] at h
    injection h with hP
    injection hP with hA hB
    subst hB
    exact pyLower_mk_unit (matchUnit_cases hmu)

theorem fontSizeMatchAt_unit {r : List Char} {g1 g2 : String}
    (h : fontSizeMatchAt r = some (g1, g2)) :
    pyLower g2 ∈ (["px", "pt", "em", "rem", "%"] : List String) := by
  simp only [fontSizeMatchAt] at h
  split at h
  · exact Option.noConfusion h
  · split at h
    · split at h
      · exact unit_of_map h
      · rename_i hd1 r2 r3 heq hd2
        rcases hmu : matchUnit (List.drop (List.takeWhile Char.isDigit r3).length r3) with _ | u
        · rw [hmu] at h
          exact unit_of_map h
        · rw [hmu] at h
          injection h with h2
          injection h2 with hA hB
          subst hB
          exact pyLower_mk_unit (matchUnit_cases hmu)
    · exact unit_of_map h

theorem fontSizeSearch_unit {s : List Char} {g1 g2 : String}
    (h : fontSizeSearchChars s = some (g1, g2)) :
    pyLower g2 ∈ (["px", "pt", "em", "rem", "%"] : List String) := by
  induction s with
  | nil => exact Option.noConfusion h
  | cons c t ih =>
      simp only [fontSizeSearchChars] at h
      split at h
      · rcases hm : fontSizeMatchAt ((c :: t).drop "font-size:".data.length |>.dropWhile pyWS)
          with _ | g
        · rw [hm] at h
          exact ih h
        · rw [hm] at h
          obtain rfl := Option.some.inj h
          exact fontSizeMatchAt_unit hm
      · exact ih h

theorem decValue_lt_twelve {a k : Nat} : decValue a k < 12 ↔ a < 12 * 10 ^ k := by
  unfold decValue
  rw [div_lt_iff₀ (by positivity)]
  constructor
  · intro h
    exact_mod_cast h
  · intro h
    exact_mod_cast h

theorem normalize_matches_spec (nv k : Nat) (u : String)
    (hu : u ∈ (["px", "pt", "em", "rem", "%"] : List String)) :
    (normalizeToPixels nv k u).map (fun pk => decValue pk.1 pk.2) =
      specNormalize (decValue nv k) u := by
  fin_cases hu
  · rfl
  · have hn : normalizeToPixels nv k "pt" = some (nv * 133, k + 2) := rfl
    have hs : specNormalize (decValue nv k) "pt" = some (decValue nv k * 1.33) := rfl
    rw [hn, hs]
    simp only [Option.map_some', Option.some.injEq]
    unfold decValue
    rw [show ((1.33 : ℚ)) = 133 / 100 by norm_num]
    push_cast
    field_simp
    simp
    exact Or.inl (by rw [pow_add]; norm_num)
  · have hn : normalizeToPixels nv k "em" = some (nv * 16, k) := rfl
    have hs : specNormalize (decValue nv k) "em" = some (decValue nv k * 16) := rfl
    rw [hn, hs]
    simp only [Option.map_some', Option.some.injEq]
    unfold decValue
    push_cast
    field_simp
  · have hn : normalizeToPixels nv k "rem" = some (nv * 16, k) := rfl
    have hs : specNormalize (decValue nv k) "rem" = some (decValue nv k * 16) := rfl
    rw [hn, hs]
    simp only [Option.map_some', Option.some.injEq]
    unfold decValue
    push_cast
    field_simp
  · have hn : normalizeToPixels nv k "%" = some (nv * 16, k + 2) := rfl
    have hs : specNormalize (decValue nv k) "%" = some ((decValue nv k / 100) * 16) := rfl
    rw [hn, hs]
    simp only [Option.map_some', Option.some.injEq]
    unfold decValue
    push_cast
    field_simp
    simp
    exact Or.inl (by rw [pow_add]; norm_num)

theorem normalize_isSome (nv k : Nat) (u : String)
    (hu : u ∈ (["px", "pt", "em", "rem", "%"] : List String)) :
    ∃ pk, normalizeToPixels nv k u = some pk := by
  rcases (by simpa using hu : u = "px" ∨ u = "pt" ∨ u = "em" ∨ u = "rem" ∨ u = "%")
    with rfl | rfl | rfl | rfl | rfl
  · exact ⟨(nv, k), rfl⟩
  · exact ⟨(nv * 133, k + 2), rfl⟩
  · exact ⟨(nv * 16, k), rfl⟩
  · exact ⟨(nv * 16, k), rfl⟩
  · exact ⟨(nv * 16, k + 2), rfl⟩

/-- C2: for every styled node whose inline style yields a font-size
match with magnitude literal `g1` and unit `g2`, the unit is one of the
five recognized units; the normalized pixel value (as an exact
rational) equals the claim's table — m for px, m × 1.33 for pt, m × 16
for em/rem, (m / 100) × 16 for percent; a Small Font Size issue of
severity Medium is emitted for the node iff the unrounded normalized
value is strictly below 12; and the checker's Small Font Size issues
are exactly the per-node emissions in document order. -/
theorem small_font_rule (doc : List Node) (i : Nat) (n : Node) (g1 g2 : String)
    (hs : fontSizeSearch (n.style.getD "") = some (g1, g2)) :
    pyLower g2 ∈ (["px", "pt", "em", "rem", "%"] : List String)
    ∧ (normalizeToPixels (decNum g1) (decScale g1) (pyLower g2)).map
        (fun pk => decValue pk.1 pk.2) =
      specNormalize (decValue (decNum g1) (decScale g1)) (pyLower g2)
    ∧ (∃ pk, normalizeToPixels (decNum g1) (decScale g1) (pyLower g2) = some pk
        ∧ ((fontIssueForNode i n).isSome = true ↔ decValue pk.1 pk.2 < 12)
        ∧ (∀ iss, fontIssueForNode i n = some iss →
            iss.type = "Small Font Size" ∧ iss.severity = "Medium"))
    ∧ ((check_font_sizes doc).1.filter (fun iss => iss.type == "Small Font Size") =
        (enum1 (doc.filter (fun n2 => n2.style.isSome))).filterMap
          (fun p => fontIssueForNode p.1 p.2)) := by
  have hu := fontSizeSearch_unit hs
  refine ⟨hu, normalize_matches_spec _ _ _ hu, ?_, font_filter_partA doc⟩
  obtain ⟨pk, hpk⟩ := normalize_isSome (decNum g1) (decScale g1) (pyLower g2) hu
  refine ⟨pk, hpk, ?_, ?_⟩
  · simp only [fontIssueForNode, hs, hpk]
    split
    · next hlt =>
        simp only [Option.isSome_some, true_iff]
        exact decValue_lt_twelve.mpr hlt
    · next hlt =>
        simp only [Option.isSome_none, Bool.false_eq_true, false_iff]
        intro hc
        exact hlt (decValue_lt_twelve.mp hc)
  · intro iss h
    exact fontIssue_fields h

theorem small_font_rule_witness :
    (fontIssueForNode 1 pFont9pt).isSome = true ∧
    (fontIssueForNode 1 pFont1em).isSome = false := by
  constructor
  · obtain ⟨pk, hpk, hiff, -⟩ := (small_font_rule [] 1 pFont9pt "9" "pt" (by decide)).2.2.1
    have hpk2 : pk = (1197, 2) :=
      Option.some.inj (hpk.symm.trans
        (by decide : normalizeToPixels (decNum "9") (decScale "9") (pyLower "pt") = some (1197, 2)))
    subst hpk2
    exact hiff.mpr (by norm_num [decValue])
  · obtain ⟨pk, hpk, hiff, -⟩ := (small_font_rule [] 1 pFont1em "1" "em" (by decide)).2.2.1
    have hpk2 : pk = (16, 0) :=
      Option.some.inj (hpk.symm.trans
        (by decide : normalizeToPixels (decNum "1") (decScale "1") (pyLower "em") = some (16, 0)))
    subst hpk2
    cases hb : (fontIssueForNode 1 pFont1em).isSome
    · rfl
    · exact absurd (hiff.mp hb) (by norm_num [decValue])

theorem all_issues_severity (doc : List Node) :
    ∀ iss ∈ all_issues doc,
      iss.severity = "High" ∨ iss.severity = "Medium" ∨ iss.severity = "Low" := by
  intro iss hm
  rcases List.mem_append.mp hm with hm2 | hc
  · rcases List.mem_append.mp hm2 with ha | hf
    · rw [check_alt_text_issues_eq] at ha
      obtain ⟨p, -, hp⟩ := List.mem_filterMap.mp ha
      rcases (altIssue_fields hp).1 with h | h
      · exact Or.inl h
      · exact Or.inr (Or.inl h)
    · rw [check_font_sizes_issues_eq] at hf
      rcases List.mem_append.mp hf with hfa | hfb
      · obtain ⟨p, -, hp⟩ := List.mem_filterMap.mp hfa
        exact Or.inr (Or.inl (fontIssue_fields hp).2)
      · by_cases hl : ((doc.filter (fun n => longTextTags.contains n.tag)).filter
            (fun n => n.text.length > 500)).length > 0
        · rw [if_pos hl] at hfb
          obtain rfl := List.mem_singleton.mp hfb
          exact Or.inr (Or.inr rfl)
        · rw [if_neg hl] at hfb
          exact absurd hfb (List.not_mem_nil iss)
  · rw [check_color_contrast_issues_eq] at hc
    rcases List.mem_append.mp hc with hca | hcb
    · obtain ⟨p, -, hp⟩ := List.mem_filterMap.mp hca
      exact Or.inl (contrastIssue_fields hp).2
    · by_cases hl : (doc.filter hasColorDecl).length > 5
      · rw [if_pos hl] at hcb
        obtain rfl := List.mem_singleton.mp hcb
        exact Or.inr (Or.inl rfl)
      · rw [if_neg hl] at hcb
        exact absurd hcb (List.not_mem_nil iss)

theorem filter_sev_perm (l : List Issue)
    (h : ∀ iss ∈ l, iss.severity = "High" ∨ iss.severity = "Medium" ∨ iss.severity = "Low") :
    (l.filter (fun i => i.severity == "High") ++ l.filter (fun i => i.severity == "Medium") ++
      l.filter (fun i => i.severity == "Low")).Perm l := by
  induction l with
  | nil => simp
  | cons a t ih =>
      have ht : ∀ iss ∈ t, iss.severity = "High" ∨ iss.severity = "Medium" ∨ iss.severity = "Low" :=
        fun iss hm => h iss (List.mem_cons_of_mem a hm)
      rcases h a (List.mem_cons_self a t) with hh | hm | hl
      · have e1 : List.filter (fun i => i.severity == "High") (a :: t) =
            a :: List.filter (fun i => i.severity == "High") t := by simp [List.filter_cons, hh]
        have e2 : List.filter (fun i => i.severity == "Medium") (a :: t) =
            List.filter (fun i => i.severity == "Medium") t := by simp [List.filter_cons, hh]
        have e3 : List.filter (fun i => i.severity == "Low") (a :: t) =
            List.filter (fun i => i.severity == "Low") t := by simp [List.filter_cons, hh]
        rw [e1, e2, e3]
        simp only [List.cons_append]
        exact (ih ht).cons a
      · have e1 : List.filter (fun i => i.severity == "High") (a :: t) =
            List.filter (fun i => i.severity == "High") t := by simp [List.filter_cons, hm]
        have e2 : List.filter (fun i => i.severity == "Medium") (a :: t) =
            a :: List.filter (fun i => i.severity == "Medium") t := by simp [List.filter_cons, hm]
        have e3 : List.filter (fun i => i.severity == "Low") (a :: t) =
            List.filter (fun i => i.severity == "Low") t := by simp [List.filter_cons, hm]
        rw [e1, e2, e3, List.append_assoc]
        refine List.Perm.trans List.perm_middle ?_
        refine List.Perm.cons a ?_
        simpa [List.append_assoc] using ih ht
      · have e1 : List.filter (fun i => i.severity == "High") (a :: t) =
            List.filter (fun i => i.severity == "High") t := by simp [List.filter_cons, hl]
        have e2 : List.filter (fun i => i.severity == "Medium") (a :: t) =
            List.filter (fun i => i.severity == "Medium") t := by simp [List.filter_cons, hl]
        have e3 : List.filter (fun i => i.severity == "Low") (a :: t) =
            a :: List.filter (fun i => i.severity == "Low") t := by simp [List.filter_cons, hl]
        rw [e1, e2, e3]
        exact List.Perm.trans List.perm_middle ((ih ht).cons a)

theorem append_ne_empty_of_left {a : String} (b : String) (ha : a ≠ "") : a ++ b ≠ "" := by
  intro h
  apply ha
  have hd := congrArg String.data h
  rw [String.data_append] at hd
  rcases List.append_eq_nil.mp hd with ⟨h1, -⟩
  exact congrArg String.mk h1

theorem highSection_empty_iff (doc : List Node) :
    highSectionStr doc = "" ↔ high_issues doc = [] := by
  unfold highSectionStr
  split
  · next h => simp [List.isEmpty_iff.mp h]
  · next h =>
      constructor
      · intro hempty
        exact absurd hempty (append_ne_empty_of_left _ (by decide))
      · intro hnil
        exact absurd (List.isEmpty_iff.mpr hnil) h

theorem mediumSection_empty_iff (doc : List Node) :
    mediumSectionStr doc = "" ↔ medium_issues doc = [] := by
  unfold mediumSectionStr
  split
  · next h => simp [List.isEmpty_iff.mp h]
  · next h =>
      constructor
      · intro hempty
        exact absurd hempty (append_ne_empty_of_left _ (by decide))
      · intro hnil
        exact absurd (List.isEmpty_iff.mpr hnil) h

theorem lowSection_empty_iff (doc : List Node) :
    lowSectionStr doc = "" ↔ low_issues doc = [] := by
  unfold lowSectionStr
  split
  · next h => simp [List.isEmpty_iff.mp h]
  · next h =>
      constructor
      · intro hempty
        exact absurd hempty (append_ne_empty_of_left _ (by decide))
      · intro hnil
        exact absurd (List.isEmpty_iff.mpr hnil) h

/-- C7: the aggregator's merged issue list is the concatenation of the
three checkers' outputs in the fixed order alt, font, color, each in
its own document-traversal order; the severity buckets High, Medium,
Low partition that list (a permutation), each bucket preserving its
internal encounter order (it is exactly the severity filter of the
merged list); and the report body is the three severity sections in
the order High, Medium, Low, a section being the empty string exactly
when its bucket is empty. -/
theorem aggregator_grouping (doc : List Node) :
    all_issues doc =
      (check_alt_text doc).1 ++ (check_font_sizes doc).1 ++ (check_color_contrast doc).1
    ∧ (high_issues doc ++ medium_issues doc ++ low_issues doc).Perm (all_issues doc)
    ∧ high_issues doc = (all_issues doc).filter (fun i => i.severity == "High")
    ∧ medium_issues doc = (all_issues doc).filter (fun i => i.severity == "Medium")
    ∧ low_issues doc = (all_issues doc).filter (fun i => i.severity == "Low")
    ∧ sectionsStr doc = highSectionStr doc ++ mediumSectionStr doc ++ lowSectionStr doc
    ∧ (highSectionStr doc = "" ↔ high_issues doc = [])
    ∧ (mediumSectionStr doc = "" ↔ medium_issues doc = [])
    ∧ (lowSectionStr doc = "" ↔ low_issues doc = []) :=
  ⟨rfl, filter_sev_perm (all_issues doc) (all_issues_severity doc), rfl, rfl, rfl, rfl,
   highSection_empty_iff doc, mediumSection_empty_iff doc, lowSection_empty_iff doc⟩

theorem check_alt_text_suggestions_eq (doc : List Node) :
    (check_alt_text doc).2 =
      if (doc.filter (fun n => n.tag == "img")).isEmpty then
        ["Consider adding relevant images with proper alt text to enhance content."]
      else if ((enum1 (doc.filter (fun n => n.tag == "img"))).filterMap
          (fun p => altIssueForImage p.1 p.2)).isEmpty then []
      else
        ["Write descriptive alt text that conveys the meaning and context of images",
         "Use empty alt=\x27\x27 for purely decorative images",
         "Avoid generic terms like \x27image\x27, \x27picture\x27, or \x27photo\x27",
         "Keep alt text concise but meaningful (aim for 125 characters or less)"] := by
  simp only [check_alt_text]
  split <;> rfl

theorem check_font_sizes_suggestions_eq (doc : List Node) :
    (check_font_sizes doc).2 =
      (if (!((enum1 (doc.filter (fun n => n.style.isSome))).filterMap
          (fun p => fontIssueForNode p.1 p.2)).isEmpty) = true then
        ["Use minimum 12px font size for body text (14px+ recommended)",
         "Ensure text can be zoomed to 200% without loss of functionality",
         "Test readability on different devices and screen sizes"]
      else []) ++
      (if ((doc.filter (fun n => longTextTags.contains n.tag)).filter
            (fun n => n.text.length > 500)).length > 0 then
        ["Break up long text blocks with headings, bullet points, or shorter paragraphs"]
      else []) := rfl

theorem check_color_contrast_suggestions_eq (doc : List Node) :
    (check_color_contrast doc).2 =
      (if (!((enum1 (doc.filter (fun n => n.style.isSome))).filterMap
          (fun p => contrastIssueForNode p.1 p.2)).isEmpty) = true then
        ["Ensure text has at least 4.5:1 contrast ratio with background (7:1 for AAA compliance)",
         "Test colors using online contrast checkers",
         "Avoid using similar shades for text and background"]
      else []) ++
      (if (doc.filter hasColorDecl).length > 5 then
        ["Don\x27t rely solely on color to convey information - use icons, text, or patterns too"]
      else []) := rfl

theorem pySetList_foldl_ne_nil (t : List String) :
    ∀ acc : List String, acc ≠ [] →
      t.foldl (fun acc x => if acc.contains x then acc else acc ++ [x]) acc ≠ [] := by
  induction t with
  | nil => exact fun acc h => h
  | cons y t ih =>
      intro acc h
      rw [List.foldl_cons]
      refine ih _ ?_
      split
      · exact h
      · simp

theorem pySetList_ne_nil {xs : List String} (h : xs ≠ []) : pySetList xs ≠ [] := by
  cases xs with
  | nil => exact absurd rfl h
  | cons x t =>
      unfold pySetList
      rw [List.foldl_cons]
      apply pySetList_foldl_ne_nil
      simp

/-- C9: whenever a checker's issue list is non-empty its suggestion
list is also non-empty, and the aggregated deduplicated suggestion
collection is non-empty whenever the aggregated issue list is. -/
theorem suggestions_nonempty (doc : List Node) :
    ((check_alt_text doc).1 ≠ [] → (check_alt_text doc).2 ≠ [])
    ∧ ((check_font_sizes doc).1 ≠ [] → (check_font_sizes doc).2 ≠ [])
    ∧ ((check_color_contrast doc).1 ≠ [] → (check_color_contrast doc).2 ≠ [])
    ∧ (all_issues doc ≠ [] → all_suggestions doc ≠ []) := by
  have halt : (check_alt_text doc).1 ≠ [] → (check_alt_text doc).2 ≠ [] := by
    intro h1
    rw [check_alt_text_issues_eq] at h1
    rw [check_alt_text_suggestions_eq]
    by_cases himg : (doc.filter (fun n => n.tag == "img")).isEmpty
    · rw [List.isEmpty_iff.mp himg] at h1
      exact absurd rfl h1
    · rw [if_neg himg, if_neg (fun hE => h1 (List.isEmpty_iff.mp hE))]
      simp
  have hfont : (check_font_sizes doc).1 ≠ [] → (check_font_sizes doc).2 ≠ [] := by
    intro h1
    rw [check_font_sizes_issues_eq] at h1
    rw [check_font_sizes_suggestions_eq]
    by_cases hA : ((enum1 (doc.filter (fun n => n.style.isSome))).filterMap
        (fun p => fontIssueForNode p.1 p.2)).isEmpty
    · have hcnt : ((doc.filter (fun n => longTextTags.contains n.tag)).filter
          (fun n => n.text.length > 500)).length > 0 := by
        by_contra hc
        apply h1
        rw [List.isEmpty_iff.mp hA, if_neg hc]
        rfl
      rw [if_pos hcnt]
      intro hc2
      rcases List.append_eq_nil.mp hc2 with ⟨-, h5⟩
      exact List.noConfusion h5
    · have hb : (!((enum1 (doc.filter (fun n => n.style.isSome))).filterMap
          (fun p => fontIssueForNode p.1 p.2)).isEmpty) = true := by
        cases hi : ((enum1 (doc.filter (fun n => n.style.isSome))).filterMap
            (fun p => fontIssueForNode p.1 p.2)).isEmpty
        · rfl
        · exact absurd hi hA
      rw [if_pos hb]
      intro hc2
      rcases List.append_eq_nil.mp hc2 with ⟨h4, -⟩
      exact List.noConfusion h4
  have hcolor : (check_color_contrast doc).1 ≠ [] → (check_color_contrast doc).2 ≠ [] := by
    intro h1
    rw [check_color_contrast_issues_eq] at h1
    rw [check_color_contrast_suggestions_eq]
    by_cases hA : ((enum1 (doc.filter (fun n => n.style.isSome))).filterMap
        (fun p => contrastIssueForNode p.1 p.2)).isEmpty
    · have hcnt : (doc.filter hasColorDecl).length > 5 := by
        by_contra hc
        apply h1
        rw [List.isEmpty_iff.mp hA, if_neg hc]
        rfl
      rw [if_pos hcnt]
      intro hc2
      rcases List.append_eq_nil.mp hc2 with ⟨-, h5⟩
      exact List.noConfusion h5
    · have hb : (!((enum1 (doc.filter (fun n => n.style.isSome))).filterMap
          (fun p => contrastIssueForNode p.1 p.2)).isEmpty) = true := by
        cases hi : ((enum1 (doc.filter (fun n => n.style.isSome))).filterMap
            (fun p => contrastIssueForNode p.1 p.2)).isEmpty
        · rfl
        · exact absurd hi hA
      rw [if_pos hb]
      intro hc2
      rcases List.append_eq_nil.mp hc2 with ⟨h4, -⟩
      exact List.noConfusion h4
  refine ⟨halt, hfont, hcolor, ?_⟩
  intro h1
  unfold all_suggestions
  apply pySetList_ne_nil
  by_cases ha : (check_alt_text doc).1 = []
  · by_cases hf : (check_font_sizes doc).1 = []
    · by_cases hc : (check_color_contrast doc).1 = []
      · exact absurd (by simp [all_issues, ha, hf, hc]) h1
      · intro hEq
        rcases List.append_eq_nil.mp hEq with ⟨-, h3⟩
        exact hcolor hc h3
    · intro hEq
      rcases List.append_eq_nil.mp hEq with ⟨h2, -⟩
      rcases List.append_eq_nil.mp h2 with ⟨-, h4⟩
      exact hfont hf h4
  · intro hEq
    rcases List.append_eq_nil.mp hEq with ⟨h2, -⟩
    rcases List.append_eq_nil.mp h2 with ⟨h3, -⟩
    exact halt ha h3

theorem suggestions_nonempty_witness :
    (check_alt_text [imgNoAlt]).2 ≠ [] ∧
    (check_font_sizes [pFont8px]).2 ≠ [] ∧
    (check_color_contrast [h1YellowWhite]).2 ≠ [] ∧
    all_suggestions [imgNoAlt] ≠ [] :=
  ⟨(suggestions_nonempty [imgNoAlt]).1 (by decide),
   (suggestions_nonempty [pFont8px]).2.1 (by decide),
   (suggestions_nonempty [h1YellowWhite]).2.2.1 (by decide),
   (suggestions_nonempty [imgNoAlt]).2.2.2 (by decide)⟩

/-- C10: the Part B membership test is substring containment of
`color:` in the style text, and `background-color:` contains `color:`
as a substring, so a node styled only with a background-color
declaration is counted toward the Color Dependency threshold; a
document of six such nodes triggers the single Color Dependency issue
naming the count 6. -/
theorem background_color_counts :
    (∀ (n : Node) (s : String), n.style = some s →
      substrOf "background-color:" s = true → hasColorDecl n = true)
    ∧ ((check_color_contrast (List.replicate 6 spanBgRed)).1.filter
        (fun iss => iss.type == "Color Dependency") =
        [{ type := "Color Dependency"
           element := "6 elements"
           description := "Heavy reliance on color - ensure information is also conveyed through other means"
           severity := "Medium"
           wcag := "WCAG 2.1 Level A - 1.4.1" }]) := by
  constructor
  · intro n s hstyle hsub
    have h1 : substrOf "color:" s = true :=
      substr_trans
        (by decide : substrOfChars "color:".data "background-color:".data = true) hsub
    have hne : s.data ≠ [] := substr_hay_ne_nil (by decide) hsub
    have hie : s.data.isEmpty = false := by
      cases hd : s.data.isEmpty
      · rfl
      · exact absurd (List.isEmpty_iff.mp hd) hne
    simp [hasColorDecl, hstyle, h1, hie]
  · decide

theorem background_color_counts_witness : hasColorDecl spanBgRed = true :=
  background_color_counts.1 spanBgRed "background-color: red" rfl (by decide)

/-! ### Concrete evaluation checks of the embedding -/

example : substrOf "color:" "background-color: white" = true := by decide
example : substrOf "color:" "font-size: 9pt" = false := by decide
example : pyStrip "  white " = "white" := by decide
example : fontSizeSearch "font-size: 8px" = some ("8", "px") := by decide
example : fontSizeSearch "color: red; font-size: 12.5Em;" = some ("12.5", "Em") := by decide
example : fontSizeSearch "font-size: 12 px" = none := by decide
example : normalizeToPixels (decNum "9") (decScale "9") "pt" = some (1197, 2) := by decide
example : fmt1 1197 2 = "12.0" := by decide
example : (fontIssueForNode 1 { tag := "p", alt := none, src := none, style := some "font-size: 9pt", text := "" }).isSome = true := by decide
example : reSearchValue "color:" "background-color: white" = some "white" := by decide
example : reSearchValue "color:" "color: navy; background-color: lightgray" = some "navy" := by decide
example : reSearchValue "background-color:" "color: navy" = none := by decide
example : (contrastIssueForNode 1 { tag := "div", alt := none, src := none, style := some "background-color: white", text := "" }).isSome = true := by decide
example : contrastIssueForNode 1 { tag := "div", alt := none, src := none, style := some "color: navy; background-color: lightgray", text := "" } = none := by decide
example : sourceLabel "raw_html" = "Raw Html" := by decide
example : pySetList ["a", "b", "a"] = ["a", "b"] := by decide
